import Mathlib

/-!
Shallow embedding of `src/imouapi/device.py` (classes `ImouDevice` and
`ImouDiscoverService`).  The collaborating modules `api.py`, `const.py`,
`device_entity.py` and `exceptions.py` are not part of the sources; where
their behaviour matters it is modelled from the spec and marked as such.
API responses are passed in explicitly: an asynchronous method of the Python
class becomes a Lean function from the current device state and the response
data to the new device state (plus error/trace information).
-/

namespace Imouapi

/-- Errors of the embedded code.  `keyError` models a raw Python `KeyError`
raised by a dictionary access; `invalidResponse` models the library's
`InvalidResponse` exception.  (`exceptions.py` is not under the sources; the
spec describes a single data-validation error kind with a message.) -/
inductive PyError where
  | keyError (key : String)
  | invalidResponse (msg : String)
deriving Repr, DecidableEq

/-- Modelled from the spec: an entity collaborator instance
(`ImouSwitch` / `ImouSensor` / `ImouBinarySensor` of `device_entity.py`,
which is not under the sources).  Per the spec it holds a name, last-known
state, an enabled flag and a freshness flag; its asynchronous `update()`
fetches new state from the vendor API, which we abstract as a call counter
(`updateCount`) so that the number of update calls is observable. -/
structure Entity where
  kind : String
  deviceId : String
  deviceName : String
  name : String
  isOn : Bool
  state : String
  enabled : Bool
  updateCount : Nat
deriving Repr, DecidableEq

/-- Modelled from the spec: calling the entity's asynchronous `update()`;
the call is recorded in the counter. -/
def Entity.asyncUpdate (e : Entity) : Entity :=
  { e with updateCount := e.updateCount + 1 }

/-- Modelled from the spec: the entity's `is_updated()` freshness flag. -/
def Entity.isUpdated (e : Entity) : Bool :=
  e.updateCount != 0

/-- Modelled from the spec: `ImouSwitch(api_client, device_id, device_name,
sensor_type)` constructor. -/
def mkImouSwitch (deviceId deviceName sensorType : String) : Entity :=
  { kind := "switch", deviceId := deviceId, deviceName := deviceName,
    name := sensorType, isOn := false, state := "", enabled := true,
    updateCount := 0 }

/-- Modelled from the spec: `ImouSensor(api_client, device_id, device_name,
sensor_type)` constructor. -/
def mkImouSensor (deviceId deviceName sensorType : String) : Entity :=
  { kind := "sensor", deviceId := deviceId, deviceName := deviceName,
    name := sensorType, isOn := false, state := "", enabled := true,
    updateCount := 0 }

/-- Modelled from the spec: `ImouBinarySensor(api_client, device_id,
device_name, sensor_type)` constructor. -/
def mkImouBinarySensor (deviceId deviceName sensorType : String) : Entity :=
  { kind := "binary_sensor", deviceId := deviceId, deviceName := deviceName,
    name := sensorType, isOn := false, state := "", enabled := true,
    updateCount := 0 }

/-- Embeds Python string splitting on a single character, by structural
recursion over the character list (so concrete runs reduce inside the
kernel, which the library's `String.splitOn` does not).  As in Python,
empty input yields one empty field and adjacent separators yield empty
fields. -/
def splitCommaChars : List Char → List (List Char)
  | [] => [[]]
  | ch :: rest =>
    match splitCommaChars rest with
    | [] => [[]]
    | group :: groups =>
        if ch = ',' then [] :: group :: groups
        else (ch :: group) :: groups

/-- Embeds the Python expression `ability.split(",")` of line 127. -/
def splitComma (s : String) : List String :=
  (splitCommaChars s.data).map (fun cs => String.mk cs)

/-- Embeds the Python string method `lower()` of line 136, character-wise
(the vendor capability vocabulary is ASCII). -/
def lowerString (s : String) : String :=
  String.mk (s.data.map Char.toLower)

/-- One entry of a vendor API `deviceList`.  A field is `none` when the
corresponding key is missing from (or not parsable in) the JSON response;
accessing such a field in the Python code raises. -/
structure DeviceData where
  deviceId : Option String := none
  catalog : Option String := none
  version : Option String := none
  name : Option String := none
  deviceModel : Option String := none
  status : Option String := none
  ability : Option String := none
deriving Repr, DecidableEq

/-- Response of `async_api_deviceBaseDetailList`: `deviceList` is `none` when
the `"deviceList"` key is absent from the response. -/
structure DetailResponse where
  deviceList : Option (List DeviceData) := none
deriving Repr, DecidableEq

/-- Response of `async_api_deviceBaseList`: each field is `none` when the
corresponding key is absent. -/
structure DeviceListResponse where
  deviceList : Option (List DeviceData) := none
  count : Option Nat := none
deriving Repr, DecidableEq

/-- The state of an `ImouDevice` instance (`device.py`, lines 16-43).  The
`_sensor_instances` dictionary has the fixed keys `"switch"`, `"sensor"`,
`"binary_sensor"` (inserted in that order in `__init__`), so it is split into
three lists here. -/
structure ImouDevice where
  deviceId : String
  catalog : String
  firmware : String
  name : String
  givenName : String
  deviceModel : String
  manufacturer : String
  online : Bool
  capabilities : List String
  switches : List String
  switchInstances : List Entity
  sensorInstances : List Entity
  binarySensorInstances : List Entity
  initialized : Bool
  enabled : Bool
deriving Repr, DecidableEq

/-- Embeds `ImouDevice.__init__` (lines 16-43). -/
def ImouDevice.new (deviceId : String) : ImouDevice :=
  { deviceId := deviceId, catalog := "N.A.", firmware := "N.A.",
    name := "N.A.", givenName := "", deviceModel := "N.A.",
    manufacturer := "Imou", online := false, capabilities := [],
    switches := [], switchInstances := [], sensorInstances := [],
    binarySensorInstances := [], initialized := false, enabled := true }

/-- Embeds `ImouDevice.get_name` (lines 49-53). -/
def ImouDevice.getName (d : ImouDevice) : String :=
  if d.givenName != "" then d.givenName else d.name

/-- Embeds `ImouDevice.set_name` (lines 55-57). -/
def ImouDevice.setName (d : ImouDevice) (givenName : String) : ImouDevice :=
  { d with givenName := givenName }

/-- Embeds `ImouDevice.set_enabled` (lines 103-105). -/
def ImouDevice.setEnabled (d : ImouDevice) (value : Bool) : ImouDevice :=
  { d with enabled := value }

/-- Embeds `ImouDevice.is_enabled` (lines 107-109). -/
def ImouDevice.isEnabled (d : ImouDevice) : Bool :=
  d.enabled

/-- Embeds `ImouDevice.get_all_sensors` (lines 75-84): all entity instances, in the
dictionary's insertion order switch, sensor, binary_sensor, and within each
category in list order. -/
def ImouDevice.getAllSensors (d : ImouDevice) : List Entity :=
  d.switchInstances ++ d.sensorInstances ++ d.binarySensorInstances

/-- Lines 127-130: capabilities are the comma-split of the `ability` string,
with `"motionDetect"` appended when missing. -/
def withMotionDetect (caps : List String) : List String :=
  if "motionDetect" ∈ caps then caps else caps ++ ["motionDetect"]

/-- Lines 134-146, body of the outer loop for one `switch_type`: scan the
capabilities for a case-insensitive match; on the first match append the
switch type to `_switches`, create an `ImouSwitch` instance and append it to
`_sensor_instances["switch"]`, then break. -/
def addSwitch (d : ImouDevice) (switchType : String) : ImouDevice :=
  match d.capabilities.find? (fun c => lowerString switchType == lowerString c) with
  | some _ =>
      { d with switches := d.switches ++ [switchType],
               switchInstances := d.switchInstances ++
                 [mkImouSwitch d.deviceId d.getName switchType] }
  | none => d

/-- Lines 120-164: the body of the `try` block once every accessed field is
present.  Device detail fields are assigned, the capability list is rebuilt,
one switch instance per matching switch type is appended, then one
`"lastAlarm"` sensor and one `"online"` binary sensor are appended
unconditionally.  `switchKeys` stands for `IMOU_SWITCHES.keys()`
(`const.py` is not under the sources; per the spec this is a fixed
known-switch table, so it is passed as a parameter). -/
def ImouDevice.initSuccessState (d : ImouDevice)
    (catalog version name deviceModel status ability : String)
    (switchKeys : List String) : ImouDevice :=
  let d1 := { d with catalog := catalog, firmware := version, name := name,
                     deviceModel := deviceModel,
                     online := status == "online",
                     capabilities := withMotionDetect (splitComma ability) }
  let d2 := switchKeys.foldl addSwitch d1
  let d3 := { d2 with sensorInstances := d2.sensorInstances ++
                [mkImouSensor d2.deviceId d2.getName "lastAlarm"] }
  { d3 with binarySensorInstances := d3.binarySensorInstances ++
      [mkImouBinarySensor d3.deviceId d3.getName "online"] }

/-- Lines 119-164: the `try` block.  Fields are read in source order; a
missing field raises a `KeyError` at that point, leaving the fields assigned
so far mutated (Python mutates `self` in place before the exception). -/
def ImouDevice.initTry (d : ImouDevice) (data : DeviceData)
    (switchKeys : List String) : ImouDevice × Option PyError :=
  match data.catalog, data.version, data.name, data.deviceModel,
        data.status, data.ability with
  | none, _, _, _, _, _ => (d, some (PyError.keyError "catalog"))
  | some c, none, _, _, _, _ =>
      ({ d with catalog := c }, some (PyError.keyError "version"))
  | some c, some v, none, _, _, _ =>
      ({ d with catalog := c, firmware := v }, some (PyError.keyError "name"))
  | some c, some v, some n, none, _, _ =>
      ({ d with catalog := c, firmware := v, name := n },
        some (PyError.keyError "deviceModel"))
  | some c, some v, some n, some m, none, _ =>
      ({ d with catalog := c, firmware := v, name := n, deviceModel := m },
        some (PyError.keyError "status"))
  | some c, some v, some n, some m, some s, none =>
      ({ d with catalog := c, firmware := v, name := n, deviceModel := m,
                online := s == "online" },
        some (PyError.keyError "ability"))
  | some c, some v, some n, some m, some s, some a =>
      (d.initSuccessState c v n m s a switchKeys, none)

/-- Embeds `ImouDevice.async_initialize` (lines 111-170), given the
`deviceBaseDetailList` response.  Returns the device state after the call
(possibly partially mutated when an exception propagates) and the raised
error, if any.  Any exception inside the `try` block is re-raised as
`InvalidResponse`; `_initialized` is set only after the whole body
succeeded. -/
def ImouDevice.asyncInit (d : ImouDevice) (switchKeys : List String)
    (resp : DetailResponse) : ImouDevice × Option PyError :=
  match resp.deviceList with
  | none => (d, some (PyError.invalidResponse "deviceList not found"))
  | some l =>
    match l with
    | [deviceData] =>
      match d.initTry deviceData switchKeys with
      | (d1, some _) =>
          (d1, some (PyError.invalidResponse
                       "missing parameter or error parsing"))
      | (d1, none) => ({ d1 with initialized := true }, none)
    | _ => (d, some (PyError.invalidResponse "deviceList not found"))

/-- The API calls issued by the device methods (through the external
`ImouAPIClient` collaborator). -/
inductive ApiCall where
  | deviceBaseDetailList (ids : List String)
  | deviceOnline (id : String)
deriving Repr, DecidableEq

/-- Result of `async_get_data`: the device state after the call, the API
calls issued (in order), the entities whose asynchronous `update()` was
called (in call order, with their state at call time), and the returned
value or raised error. -/
structure GetDataResult where
  device : ImouDevice
  apiCalls : List ApiCall
  updatedEntities : List Entity
  result : Except PyError Bool
deriving Repr

/-- Embeds `ImouDevice.async_get_data` (lines 172-195).  `detailResp` is the
response `async_api_deviceBaseDetailList` would return (used only on the
lazy-initialization path); `onlineResp` is the value of the `"onLine"` key of
the `async_api_deviceOnline` response, `none` when the key is absent. -/
def ImouDevice.asyncGetData (d : ImouDevice) (switchKeys : List String)
    (detailResp : DetailResponse) (onlineResp : Option String) :
    GetDataResult :=
  if d.enabled = false then
    { device := d, apiCalls := [], updatedEntities := [],
      result := Except.ok false }
  else
    let initStep : ImouDevice × List ApiCall × Option PyError :=
      if d.initialized = false then
        ((d.asyncInit switchKeys detailResp).1,
         [ApiCall.deviceBaseDetailList [d.deviceId]],
         (d.asyncInit switchKeys detailResp).2)
      else (d, [], none)
    match initStep with
    | (d1, initCalls, some e) =>
        { device := d1, apiCalls := initCalls, updatedEntities := [],
          result := Except.error e }
    | (d1, initCalls, none) =>
        let calls := initCalls ++ [ApiCall.deviceOnline d1.deviceId]
        match onlineResp with
        | none =>
            { device := d1, apiCalls := calls, updatedEntities := [],
              result := Except.error (PyError.invalidResponse
                                        "onLine not found") }
        | some v =>
            let d2 := { d1 with online := v == "1" }
            if d2.online then
              { device := { d2 with
                  switchInstances := d2.switchInstances.map Entity.asyncUpdate,
                  sensorInstances := d2.sensorInstances.map Entity.asyncUpdate,
                  binarySensorInstances :=
                    d2.binarySensorInstances.map Entity.asyncUpdate },
                apiCalls := calls,
                updatedEntities := d2.getAllSensors,
                result := Except.ok true }
            else
              { device := d2, apiCalls := calls, updatedEntities := [],
                result := Except.ok true }

/-- A capability entry of the diagnostics snapshot (lines 205-215). -/
structure CapabilityDiag where
  name : String
  description : String
deriving Repr, DecidableEq

/-- A switch or binary-sensor entry of the diagnostics snapshot (lines
217-229 and 243-253): state is the entity's `is_on()`. -/
structure BoolStateDiag where
  name : String
  description : String
  state : Bool
  isEnabled : Bool
  isUpdated : Bool
deriving Repr, DecidableEq

/-- A sensor entry of the diagnostics snapshot (lines 231-241): state is the
entity's `get_state()`. -/
structure SensorDiag where
  name : String
  description : String
  state : String
  isEnabled : Bool
  isUpdated : Bool
deriving Repr, DecidableEq

/-- The `"device"` section of the diagnostics snapshot (lines 261-270). -/
structure DeviceDiag where
  id : String
  name : String
  catalog : String
  givenName : String
  model : String
  firmware : String
  manufacturer : String
  online : String
deriving Repr, DecidableEq

/-- The diagnostics snapshot returned by `get_diagnostics` (lines 254-276).
The `"api"` section only reflects the external API-client collaborator
(`get_base_url` / `get_timeout` / `is_connected`) and is not modelled. -/
structure Diagnostics where
  device : DeviceDiag
  capabilities : List CapabilityDiag
  switches : List BoolStateDiag
  sensors : List SensorDiag
  binarySensors : List BoolStateDiag
deriving Repr, DecidableEq

/-- Description with fallback (lines 208-212 and 221-223): when the name is
in the lookup table the description is `"<table entry> (<name>)"`, otherwise
the raw name itself. -/
def describeWith (table : List (String × String)) (name : String) : String :=
  match List.lookup name table with
  | some desc => desc ++ " (" ++ name ++ ")"
  | none => name

/-- Lines 231-241: build the sensor entries.  `SENSORS[sensor_name]` is a
direct dictionary index, so a name absent from the table raises a `KeyError`
at the first offending entity.  The table stands for `SENSORS` of `const.py`
(not under the sources) and is passed as a parameter. -/
def diagSensorList (table : List (String × String)) :
    List Entity → Except PyError (List SensorDiag)
  | [] => Except.ok []
  | e :: rest =>
    match List.lookup e.name table with
    | none => Except.error (PyError.keyError e.name)
    | some desc =>
      match diagSensorList table rest with
      | Except.error err => Except.error err
      | Except.ok out =>
          Except.ok ({ name := e.name,
                       description := desc ++ " (" ++ e.name ++ ")",
                       state := e.state, isEnabled := e.enabled,
                       isUpdated := e.isUpdated } :: out)

/-- Lines 243-253: build the binary-sensor entries.  Like the sensor
entries, `BINARY_SENSORS[sensor_name]` is a direct dictionary index with no
fallback. -/
def diagBinaryList (table : List (String × String)) :
    List Entity → Except PyError (List BoolStateDiag)
  | [] => Except.ok []
  | e :: rest =>
    match List.lookup e.name table with
    | none => Except.error (PyError.keyError e.name)
    | some desc =>
      match diagBinaryList table rest with
      | Except.error err => Except.error err
      | Except.ok out =>
          Except.ok ({ name := e.name,
                       description := desc ++ " (" ++ e.name ++ ")",
                       state := e.isOn, isEnabled := e.enabled,
                       isUpdated := e.isUpdated } :: out)

/-- Embeds `ImouDevice.get_diagnostics` (lines 201-276).  The four lookup tables
stand for `IMOU_CAPABILITIES`, `IMOU_SWITCHES`, `SENSORS` and
`BINARY_SENSORS` of `const.py` (not under the sources) and are passed as
parameters.  Capability and switch descriptions fall back to the raw name;
sensor and binary-sensor descriptions are direct indexes and raise on a
missing name (sensors are built before binary sensors, as in the source). -/
def ImouDevice.getDiagnostics (d : ImouDevice)
    (imouCapabilities imouSwitches sensorsTable binarySensorsTable :
      List (String × String)) : Except PyError Diagnostics :=
  let caps : List CapabilityDiag := d.capabilities.map
    (fun c => { name := c, description := describeWith imouCapabilities c })
  let sws : List BoolStateDiag := d.switchInstances.map
    (fun e => { name := e.name,
                description := describeWith imouSwitches e.name,
                state := e.isOn, isEnabled := e.enabled,
                isUpdated := e.isUpdated })
  match diagSensorList sensorsTable d.sensorInstances with
  | Except.error e => Except.error e
  | Except.ok sens =>
    match diagBinaryList binarySensorsTable d.binarySensorInstances with
    | Except.error e => Except.error e
    | Except.ok bins =>
      Except.ok
        { device := { id := d.deviceId, name := d.name, catalog := d.catalog,
                      givenName := d.givenName, model := d.deviceModel,
                      firmware := d.firmware, manufacturer := d.manufacturer,
                      online := if d.online then "yes" else "no" },
          capabilities := caps, switches := sws, sensors := sens,
          binarySensors := bins }

/-- Lines 327-329 for one discovery entry: read `device_data["deviceId"]`
(a missing key raises a raw `KeyError`, not wrapped), construct a fresh
`ImouDevice` and run its initialization against the detail response the API
returns for that id (`detailOf`). -/
def buildDevice (switchKeys : List String)
    (detailOf : String → DetailResponse) (data : DeviceData) :
    Except PyError ImouDevice :=
  match data.deviceId with
  | none => Except.error (PyError.keyError "deviceId")
  | some id =>
    match (ImouDevice.new id).asyncInit switchKeys (detailOf id) with
    | (_, some e) => Except.error e
    | (dev, none) => Except.ok dev

/-- Python dictionary assignment `devices[name] = device` on a dictionary
represented as an association list: an existing key keeps its position and
gets the new value, a new key is appended. -/
def dictInsert (m : List (String × ImouDevice)) (k : String)
    (v : ImouDevice) : List (String × ImouDevice) :=
  match m with
  | [] => [(k, v)]
  | (k', v') :: rest =>
      if k' = k then (k, v) :: rest else (k', v') :: dictInsert rest k v

/-- Lines 326-331: the discovery loop.  Devices are built and initialized
sequentially in response order; a failure aborts the whole discovery; each
successful device is stored under `device.get_name()`, overwriting any
earlier entry with the same name. -/
def discoverLoop (switchKeys : List String)
    (detailOf : String → DetailResponse) :
    List DeviceData → List (String × ImouDevice) →
    Except PyError (List (String × ImouDevice))
  | [], acc => Except.ok acc
  | data :: rest, acc =>
    match buildDevice switchKeys detailOf data with
    | Except.error e => Except.error e
    | Except.ok dev =>
        discoverLoop switchKeys detailOf rest (dictInsert acc dev.getName dev)

/-- Embeds `ImouDiscoverService.async_discover_devices` (lines 316-333), given the
`deviceBaseList` response and the detail response for each device id. -/
def asyncDiscoverDevices (switchKeys : List String)
    (detailOf : String → DetailResponse) (resp : DeviceListResponse) :
    Except PyError (List (String × ImouDevice)) :=
  match resp.deviceList, resp.count with
  | some l, some _ => discoverLoop switchKeys detailOf l []
  | _, _ =>
      Except.error (PyError.invalidResponse "deviceList or count not found")

/-! Concrete example data, used to evaluate the theorems below on explicit
inputs. -/

/-- A well-formed device detail entry, as in the spec's worked example. -/
def dataEx : DeviceData :=
  { deviceId := some "IPC1", catalog := some "camera", version := some "1.0",
    name := some "cam", deviceModel := some "M", status := some "online",
    ability := some "NightVision,AudioTalk" }

/-- A well-formed detail response holding exactly one entry. -/
def respEx : DetailResponse := { deviceList := some [dataEx] }

/-- An example switch table: one key matching a capability of `dataEx` only
case-insensitively, one key matching nothing. -/
def keysEx : List String := ["nightVision", "headerDetect"]

/-- The example device after a successful initialization. -/
def devEx : ImouDevice := ((ImouDevice.new "IPC1").asyncInit keysEx respEx).1

/-- An initialized-looking device used for the diagnostics claims: it owns
one switch, one sensor and one binary sensor entity. -/
def diagDeviceEx : ImouDevice :=
  { ImouDevice.new "IPC1" with
      capabilities := ["unknownCap", "motionDetect"],
      switchInstances := [mkImouSwitch "IPC1" "cam" "nightVision"],
      sensorInstances := [mkImouSensor "IPC1" "cam" "lastAlarm"],
      binarySensorInstances := [mkImouBinarySensor "IPC1" "cam" "online"] }

/-- A detail response that resolves every device id to the same vendor name,
used for the discovery name-collision claim. -/
def detailOfEx : String → DetailResponse :=
  fun id => { deviceList := some [{ dataEx with deviceId := some id }] }

/-- A device-list response with two devices that resolve to the same display
name. -/
def deviceListRespEx : DeviceListResponse :=
  { deviceList := some [{ deviceId := some "A" }, { deviceId := some "B" }],
    count := some 2 }

/-- The device built for id `"B"` during the example discovery. -/
def devBEx : ImouDevice := ((ImouDevice.new "B").asyncInit [] (detailOfEx "B")).1

/-! Helper lemmas: fields preserved by the switch-adding loop, and inversion
of a successful initialization. -/

@[simp]
lemma addSwitch_capabilities (d : ImouDevice) (t : String) :
    (addSwitch d t).capabilities = d.capabilities := by
  unfold addSwitch; split <;> rfl

@[simp]
lemma addSwitch_deviceId (d : ImouDevice) (t : String) :
    (addSwitch d t).deviceId = d.deviceId := by
  unfold addSwitch; split <;> rfl

@[simp]
lemma addSwitch_name (d : ImouDevice) (t : String) :
    (addSwitch d t).name = d.name := by
  unfold addSwitch; split <;> rfl

@[simp]
lemma addSwitch_givenName (d : ImouDevice) (t : String) :
    (addSwitch d t).givenName = d.givenName := by
  unfold addSwitch; split <;> rfl

@[simp]
lemma addSwitch_getName (d : ImouDevice) (t : String) :
    (addSwitch d t).getName = d.getName := by
  unfold ImouDevice.getName; simp

@[simp]
lemma addSwitch_sensorInstances (d : ImouDevice) (t : String) :
    (addSwitch d t).sensorInstances = d.sensorInstances := by
  unfold addSwitch; split <;> rfl

@[simp]
lemma addSwitch_binarySensorInstances (d : ImouDevice) (t : String) :
    (addSwitch d t).binarySensorInstances = d.binarySensorInstances := by
  unfold addSwitch; split <;> rfl

@[simp]
lemma addSwitch_initialized (d : ImouDevice) (t : String) :
    (addSwitch d t).initialized = d.initialized := by
  unfold addSwitch; split <;> rfl

@[simp]
lemma addSwitch_enabled (d : ImouDevice) (t : String) :
    (addSwitch d t).enabled = d.enabled := by
  unfold addSwitch; split <;> rfl

@[simp]
lemma foldl_addSwitch_capabilities (keys : List String) (d : ImouDevice) :
    (keys.foldl addSwitch d).capabilities = d.capabilities := by
  induction keys generalizing d with
  | nil => rfl
  | cons t rest ih => simp [List.foldl_cons, ih]

@[simp]
lemma foldl_addSwitch_deviceId (keys : List String) (d : ImouDevice) :
    (keys.foldl addSwitch d).deviceId = d.deviceId := by
  induction keys generalizing d with
  | nil => rfl
  | cons t rest ih => simp [List.foldl_cons, ih]

@[simp]
lemma foldl_addSwitch_getName (keys : List String) (d : ImouDevice) :
    (keys.foldl addSwitch d).getName = d.getName := by
  induction keys generalizing d with
  | nil => rfl
  | cons t rest ih => simp [List.foldl_cons, ih]

@[simp]
lemma foldl_addSwitch_sensorInstances (keys : List String) (d : ImouDevice) :
    (keys.foldl addSwitch d).sensorInstances = d.sensorInstances := by
  induction keys generalizing d with
  | nil => rfl
  | cons t rest ih => simp [List.foldl_cons, ih]

@[simp]
lemma foldl_addSwitch_binarySensorInstances (keys : List String)
    (d : ImouDevice) :
    (keys.foldl addSwitch d).binarySensorInstances =
      d.binarySensorInstances := by
  induction keys generalizing d with
  | nil => rfl
  | cons t rest ih => simp [List.foldl_cons, ih]

@[simp]
lemma foldl_addSwitch_initialized (keys : List String) (d : ImouDevice) :
    (keys.foldl addSwitch d).initialized = d.initialized := by
  induction keys generalizing d with
  | nil => rfl
  | cons t rest ih => simp [List.foldl_cons, ih]

@[simp]
lemma foldl_addSwitch_givenName (keys : List String) (d : ImouDevice) :
    (keys.foldl addSwitch d).givenName = d.givenName := by
  induction keys generalizing d with
  | nil => rfl
  | cons t rest ih => simp [List.foldl_cons, ih]

@[simp]
lemma foldl_addSwitch_name (keys : List String) (d : ImouDevice) :
    (keys.foldl addSwitch d).name = d.name := by
  induction keys generalizing d with
  | nil => rfl
  | cons t rest ih => simp [List.foldl_cons, ih]

/-- The switch instances produced by the switch-adding loop: one instance per
switch type with a case-insensitive capability match, in switch-table
order. -/
lemma foldl_addSwitch_switchInstances (keys : List String) (d : ImouDevice) :
    (keys.foldl addSwitch d).switchInstances = d.switchInstances ++
      (keys.filter (fun t =>
          (d.capabilities.find? (fun c => lowerString t == lowerString c)).isSome)).map
        (fun t => mkImouSwitch d.deviceId d.getName t) := by
  induction keys generalizing d with
  | nil => simp
  | cons t rest ih =>
    rw [List.foldl_cons, ih]
    simp only [addSwitch_capabilities, addSwitch_deviceId, addSwitch_getName]
    cases hf : d.capabilities.find? (fun c => lowerString t == lowerString c) with
    | none =>
        have hd : addSwitch d t = d := by
          unfold addSwitch; rw [hf]
        rw [hd, List.filter_cons]
        simp [hf]
    | some c =>
        rw [List.filter_cons]
        unfold addSwitch
        rw [hf]
        simp [hf]

lemma withMotionDetect_mem (caps : List String) :
    "motionDetect" ∈ withMotionDetect caps := by
  unfold withMotionDetect
  split
  · assumption
  · simp

@[simp]
lemma initSuccessState_capabilities (d : ImouDevice)
    (c v n m s a : String) (keys : List String) :
    (d.initSuccessState c v n m s a keys).capabilities =
      withMotionDetect (splitComma a) := by
  unfold ImouDevice.initSuccessState
  simp

@[simp]
lemma initSuccessState_initialized (d : ImouDevice)
    (c v n m s a : String) (keys : List String) :
    (d.initSuccessState c v n m s a keys).initialized = d.initialized := by
  unfold ImouDevice.initSuccessState
  simp

lemma initSuccessState_switchInstances (d : ImouDevice)
    (c v n m s a : String) (keys : List String) :
    (d.initSuccessState c v n m s a keys).switchInstances =
      d.switchInstances ++
      (keys.filter (fun t =>
          ((withMotionDetect (splitComma a)).find?
            (fun cp => lowerString t == lowerString cp)).isSome)).map
        (fun t => mkImouSwitch d.deviceId
          (if d.givenName != "" then d.givenName else n) t) := by
  unfold ImouDevice.initSuccessState
  rw [foldl_addSwitch_switchInstances]
  simp [ImouDevice.getName]

lemma initSuccessState_sensorInstances (d : ImouDevice)
    (c v n m s a : String) (keys : List String) :
    (d.initSuccessState c v n m s a keys).sensorInstances =
      d.sensorInstances ++ [mkImouSensor d.deviceId
        (if d.givenName != "" then d.givenName else n) "lastAlarm"] := by
  unfold ImouDevice.initSuccessState
  simp [ImouDevice.getName]

lemma initSuccessState_binarySensorInstances (d : ImouDevice)
    (c v n m s a : String) (keys : List String) :
    (d.initSuccessState c v n m s a keys).binarySensorInstances =
      d.binarySensorInstances ++ [mkImouBinarySensor d.deviceId
        (if d.givenName != "" then d.givenName else n) "online"] := by
  unfold ImouDevice.initSuccessState
  simp [ImouDevice.getName]

@[simp]
lemma initSuccessState_deviceId (d : ImouDevice)
    (c v n m s a : String) (keys : List String) :
    (d.initSuccessState c v n m s a keys).deviceId = d.deviceId := by
  unfold ImouDevice.initSuccessState
  simp

@[simp]
lemma initSuccessState_givenName (d : ImouDevice)
    (c v n m s a : String) (keys : List String) :
    (d.initSuccessState c v n m s a keys).givenName = d.givenName := by
  unfold ImouDevice.initSuccessState
  simp

/-- Inversion of a successful run of the parsing block: every accessed field
was present and the final state is the success state. -/
lemma initTry_none_inv {d : ImouDevice} {data : DeviceData}
    {keys : List String} {d1 : ImouDevice}
    (h : d.initTry data keys = (d1, none)) :
    ∃ c v n m s a, data.catalog = some c ∧ data.version = some v ∧
      data.name = some n ∧ data.deviceModel = some m ∧
      data.status = some s ∧ data.ability = some a ∧
      d1 = d.initSuccessState c v n m s a keys := by
  rcases data with ⟨di, c, v, n, m, s, a⟩
  cases c <;> cases v <;> cases n <;> cases m <;> cases s <;> cases a <;>
    simp_all [ImouDevice.initTry]

/-- The parsing block never changes the `_initialized` flag (on failure the
fields assigned so far are mutated, on success everything but the flag). -/
lemma initTry_initialized (d : ImouDevice) (data : DeviceData)
    (keys : List String) :
    (d.initTry data keys).1.initialized = d.initialized := by
  rcases data with ⟨di, c, v, n, m, s, a⟩
  cases c <;> cases v <;> cases n <;> cases m <;> cases s <;> cases a <;>
    simp [ImouDevice.initTry]

/-- Inversion of a successful initialization: the response held exactly one
device entry, every parsed field was present, and the final state is the
success state with the `_initialized` flag set. -/
lemma asyncInit_none_inv {d : ImouDevice} {keys : List String}
    {resp : DetailResponse}
    (h : (d.asyncInit keys resp).2 = none) :
    ∃ data c v n m s a, resp.deviceList = some [data] ∧
      data.catalog = some c ∧ data.version = some v ∧
      data.name = some n ∧ data.deviceModel = some m ∧
      data.status = some s ∧ data.ability = some a ∧
      (d.asyncInit keys resp).1 =
        { d.initSuccessState c v n m s a keys with initialized := true } := by
  rcases resp with ⟨dl⟩
  cases dl with
  | none => simp [ImouDevice.asyncInit] at h
  | some l =>
    cases l with
    | nil => simp [ImouDevice.asyncInit] at h
    | cons data rest =>
      cases rest with
      | cons data2 rest2 => simp [ImouDevice.asyncInit] at h
      | nil =>
        cases ht : d.initTry data keys with
        | mk d1 err =>
          cases err with
          | some e => simp [ImouDevice.asyncInit, ht] at h
          | none =>
            obtain ⟨c, v, n, m, s, a, hc, hv, hn, hm, hs, ha, hd1⟩ :=
              initTry_none_inv ht
            refine ⟨data, c, v, n, m, s, a, rfl, hc, hv, hn, hm, hs, ha, ?_⟩
            simp [ImouDevice.asyncInit, ht, hd1]

@[simp]
lemma set_initialized_capabilities (x : ImouDevice) (b : Bool) :
    ({ x with initialized := b } : ImouDevice).capabilities =
      x.capabilities := rfl

@[simp]
lemma set_initialized_switchInstances (x : ImouDevice) (b : Bool) :
    ({ x with initialized := b } : ImouDevice).switchInstances =
      x.switchInstances := rfl

@[simp]
lemma set_initialized_sensorInstances (x : ImouDevice) (b : Bool) :
    ({ x with initialized := b } : ImouDevice).sensorInstances =
      x.sensorInstances := rfl

@[simp]
lemma set_initialized_binarySensorInstances (x : ImouDevice) (b : Bool) :
    ({ x with initialized := b } : ImouDevice).binarySensorInstances =
      x.binarySensorInstances := rfl

/-- C1: after a successful initialization, the capability set always
contains `"motionDetect"`, whatever capability string the API reported. -/
theorem asyncInit_motionDetect_present (d : ImouDevice)
    (switchKeys : List String) (resp : DetailResponse)
    (h : (d.asyncInit switchKeys resp).2 = none) :
    "motionDetect" ∈ (d.asyncInit switchKeys resp).1.capabilities := by
  obtain ⟨data, c, v, n, m, s, a, hdl, hc, hv, hn, hm, hs, ha, hres⟩ :=
    asyncInit_none_inv h
  rw [hres, set_initialized_capabilities, initSuccessState_capabilities]
  exact withMotionDetect_mem _

/-- C1 witness: evaluation on the concrete example response, whose ability
string does not mention motionDetect. -/
theorem asyncInit_motionDetect_present_ex :
    "motionDetect" ∈
      ((ImouDevice.new "IPC1").asyncInit keysEx respEx).1.capabilities :=
  asyncInit_motionDetect_present (ImouDevice.new "IPC1") keysEx respEx rfl

/-- C4: initialization fails with the data-validation error kind whenever the
response lacks a `deviceList` or its list has length other than one; every
error it raises is of that single kind (missing-field errors are re-raised,
never propagated raw); and the initialized flag becomes true exactly on an
error-free run, staying untouched on a failed one. -/
theorem asyncInit_error_contract (d : ImouDevice) (keys : List String)
    (resp : DetailResponse) :
    (∀ e, (d.asyncInit keys resp).2 = some e →
        ∃ msg, e = PyError.invalidResponse msg) ∧
    (resp.deviceList = none → (d.asyncInit keys resp).2 ≠ none) ∧
    (∀ l, resp.deviceList = some l → l.length ≠ 1 →
        (d.asyncInit keys resp).2 ≠ none) ∧
    ((d.asyncInit keys resp).2 ≠ none →
        (d.asyncInit keys resp).1.initialized = d.initialized) ∧
    ((d.asyncInit keys resp).2 = none →
        (d.asyncInit keys resp).1.initialized = true) := by
  rcases resp with ⟨dl⟩
  cases dl with
  | none => refine ⟨?_, ?_, ?_, ?_, ?_⟩ <;> simp [ImouDevice.asyncInit]
  | some l =>
    cases l with
    | nil => refine ⟨?_, ?_, ?_, ?_, ?_⟩ <;> simp [ImouDevice.asyncInit]
    | cons data rest =>
      cases rest with
      | cons data2 rest2 =>
          refine ⟨?_, ?_, ?_, ?_, ?_⟩ <;> simp [ImouDevice.asyncInit]
      | nil =>
        cases ht : d.initTry data keys with
        | mk d1 err =>
          have hinit : d1.initialized = d.initialized := by
            have h0 := initTry_initialized d data keys
            rw [ht] at h0
            exact h0
          cases err with
          | some e =>
              refine ⟨?_, ?_, ?_, ?_, ?_⟩ <;>
                simp [ImouDevice.asyncInit, ht, hinit]
          | none =>
              refine ⟨?_, ?_, ?_, ?_, ?_⟩ <;>
                simp [ImouDevice.asyncInit, ht]

/-- C4 witness: a response without a `deviceList` makes the concrete
initialization fail. -/
theorem asyncInit_error_contract_ex :
    ((ImouDevice.new "x").asyncInit [] { deviceList := none }).2 ≠ none :=
  (asyncInit_error_contract (ImouDevice.new "x") []
    { deviceList := none }).2.1 rfl

/-- C5: on a disabled device, the data refresh returns false, issues no API
call, updates no entity, and leaves the whole device state unchanged. -/
theorem asyncGetData_disabled (d : ImouDevice) (keys : List String)
    (detailResp : DetailResponse) (onlineResp : Option String)
    (he : d.enabled = false) :
    (d.asyncGetData keys detailResp onlineResp).result = Except.ok false ∧
    (d.asyncGetData keys detailResp onlineResp).apiCalls = [] ∧
    (d.asyncGetData keys detailResp onlineResp).updatedEntities = [] ∧
    (d.asyncGetData keys detailResp onlineResp).device = d := by
  unfold ImouDevice.asyncGetData
  rw [he]
  simp

/-- C5 witness: evaluation on a concrete disabled device. -/
theorem asyncGetData_disabled_ex :
    (((ImouDevice.new "x").setEnabled false).asyncGetData []
        { deviceList := none } none).result = Except.ok false :=
  (asyncGetData_disabled ((ImouDevice.new "x").setEnabled false) []
    { deviceList := none } none rfl).1

/-- C10: on an enabled, initialized device, a response missing the
`"onLine"` field makes the refresh raise the data-validation error with the
device state (online flag and every entity) exactly as before the call. -/
theorem asyncGetData_missing_onLine (d : ImouDevice) (keys : List String)
    (detailResp : DetailResponse)
    (he : d.enabled = true) (hi : d.initialized = true) :
    (d.asyncGetData keys detailResp none).result =
      Except.error (PyError.invalidResponse "onLine not found") ∧
    (d.asyncGetData keys detailResp none).device = d ∧
    (d.asyncGetData keys detailResp none).updatedEntities = [] := by
  unfold ImouDevice.asyncGetData
  rw [he, hi]
  simp

/-- C10 witness: evaluation on the concrete initialized example device. -/
theorem asyncGetData_missing_onLine_ex :
    (devEx.asyncGetData keysEx respEx none).device = devEx :=
  (asyncGetData_missing_onLine devEx keysEx respEx (by decide) (by decide)).2.1

/-- C6: the display name is the user override when set to a non-empty
string, and the vendor name otherwise; setting the override to the empty
string reverts to the vendor name. -/
theorem getName_setName_contract (d : ImouDevice) :
    (∀ nm, nm ≠ "" → (d.setName nm).getName = nm) ∧
    (d.setName "").getName = d.name ∧
    (d.givenName = "" → d.getName = d.name) := by
  refine ⟨?_, ?_, ?_⟩
  · intro nm hnm
    simp [ImouDevice.setName, ImouDevice.getName, hnm]
  · simp [ImouDevice.setName, ImouDevice.getName]
  · intro hg
    simp [ImouDevice.getName, hg]

/-- C6 witness: evaluation on a concrete device and override. -/
theorem getName_setName_contract_ex :
    ((ImouDevice.new "x").setName "cam").getName = "cam" :=
  (getName_setName_contract (ImouDevice.new "x")).1 "cam" (by decide)

/-- C3: on an enabled, initialized device, a refresh that finds the device
online calls each owned entity's update exactly once, enumerating the
entities in category order switch, sensor, binary_sensor and in insertion
order within each, and returns true; a refresh that finds it offline calls
no update, leaves every entity untouched, and still returns true. -/
theorem asyncGetData_online_refresh (d : ImouDevice) (keys : List String)
    (detailResp : DetailResponse)
    (he : d.enabled = true) (hi : d.initialized = true) :
    ((d.asyncGetData keys detailResp (some "1")).result = Except.ok true ∧
     (d.asyncGetData keys detailResp (some "1")).updatedEntities =
       d.getAllSensors ∧
     (d.asyncGetData keys detailResp (some "1")).device.getAllSensors =
       d.getAllSensors.map Entity.asyncUpdate) ∧
    ∀ v, v ≠ "1" →
      (d.asyncGetData keys detailResp (some v)).result = Except.ok true ∧
      (d.asyncGetData keys detailResp (some v)).updatedEntities = [] ∧
      (d.asyncGetData keys detailResp (some v)).device.switchInstances =
        d.switchInstances ∧
      (d.asyncGetData keys detailResp (some v)).device.sensorInstances =
        d.sensorInstances ∧
      (d.asyncGetData keys detailResp
        (some v)).device.binarySensorInstances =
        d.binarySensorInstances := by
  constructor
  · unfold ImouDevice.asyncGetData
    rw [he, hi]
    simp [ImouDevice.getAllSensors]
  · intro v hv
    have hb : (v == "1") = false := beq_eq_false_iff_ne.mpr hv
    unfold ImouDevice.asyncGetData
    rw [he, hi]
    simp [hb]

/-- C3 witness: evaluation on the concrete initialized example device and an
online status response. -/
theorem asyncGetData_online_refresh_ex :
    (devEx.asyncGetData keysEx respEx (some "1")).updatedEntities =
      devEx.getAllSensors :=
  (asyncGetData_online_refresh devEx keysEx respEx (by decide) (by decide)).1.2.1

lemma any_eq_isSome_find? {α : Type} (l : List α) (p : α → Bool) :
    l.any p = (l.find? p).isSome := by
  induction l with
  | nil => rfl
  | cons x xs ih =>
    cases h : p x with
    | true => simp [List.any_cons, List.find?_cons_of_pos _ h, h]
    | false =>
      have hn : ¬ p x = true := by simp [h]
      simp [List.any_cons, List.find?_cons_of_neg _ hn, h, ih]

/-- Counting switch entities with a given name among instances created for a
list of switch types counts the occurrences of the name in the list. -/
lemma countP_name_map_mkSwitch (did nm t : String) (l : List String) :
    ((l.map (fun s => mkImouSwitch did nm s)).countP
        (fun e => e.name == t)) = l.count t := by
  rw [List.countP_map]
  rfl

lemma count_filter_eq_if (t : String) (q : String → Bool) (keys : List String)
    (hnd : keys.Nodup) (ht : t ∈ keys) :
    (keys.filter q).count t = if q t then 1 else 0 := by
  by_cases hq : q t = true
  · rw [if_pos hq, List.count_filter hq]
    exact List.count_eq_one_of_mem hnd ht
  · rw [if_neg hq]
    apply List.count_eq_zero_of_not_mem
    intro hmem
    exact hq (List.of_mem_filter hmem)

/-- C2: starting from a fresh device, a successful initialization creates
one switch entity for a known switch type exactly when some reported
capability matches it case-insensitively, and never more than one entity per
switch type, however many capabilities match. -/
theorem asyncInit_switch_per_type (deviceId : String) (keys : List String)
    (resp : DetailResponse) (t : String)
    (hnd : keys.Nodup) (ht : t ∈ keys)
    (h : ((ImouDevice.new deviceId).asyncInit keys resp).2 = none) :
    ((ImouDevice.new deviceId).asyncInit keys resp).1.switchInstances.countP
        (fun e => e.name == t) =
      if ((ImouDevice.new deviceId).asyncInit keys resp).1.capabilities.any
          (fun c => lowerString t == lowerString c) then 1 else 0 := by
  obtain ⟨data, c, v, n, m, s, a, hdl, hc, hv, hn, hm, hs, ha, hres⟩ :=
    asyncInit_none_inv h
  rw [hres, set_initialized_switchInstances, set_initialized_capabilities,
      initSuccessState_switchInstances, initSuccessState_capabilities]
  rw [show (ImouDevice.new deviceId).switchInstances = [] from rfl,
      List.nil_append, countP_name_map_mkSwitch,
      count_filter_eq_if t _ keys hnd ht, any_eq_isSome_find?]

/-- C2 witness: in the concrete example, the capability string
`"NightVision"` matches switch type `"nightVision"` only case-insensitively
and produces exactly one switch entity for it. -/
theorem asyncInit_switch_per_type_ex :
    ((ImouDevice.new "IPC1").asyncInit keysEx respEx).1.switchInstances.countP
        (fun e => e.name == "nightVision") =
      if ((ImouDevice.new "IPC1").asyncInit keysEx
          respEx).1.capabilities.any
          (fun c => lowerString "nightVision" == lowerString c)
      then 1 else 0 :=
  asyncInit_switch_per_type "IPC1" keysEx respEx "nightVision"
    (by decide) (by decide) rfl

/-- C9: initialization is not idempotent; running it twice successfully on
the same response duplicates every entity: two lastAlarm sensors, two online
binary sensors, and two switch entities per matched switch type. -/
theorem asyncInit_not_idempotent (deviceId : String) (keys : List String)
    (resp : DetailResponse) (hnd : keys.Nodup)
    (h : ((ImouDevice.new deviceId).asyncInit keys resp).2 = none) :
    ((((ImouDevice.new deviceId).asyncInit keys resp).1.asyncInit keys
        resp).2 = none) ∧
    ((((ImouDevice.new deviceId).asyncInit keys resp).1.asyncInit keys
        resp).1.sensorInstances.countP
        (fun e => e.name == "lastAlarm") = 2) ∧
    ((((ImouDevice.new deviceId).asyncInit keys resp).1.asyncInit keys
        resp).1.binarySensorInstances.countP
        (fun e => e.name == "online") = 2) ∧
    ∀ t ∈ keys,
      ((((ImouDevice.new deviceId).asyncInit keys resp).1.asyncInit keys
          resp).1.switchInstances.countP (fun e => e.name == t) =
        if ((ImouDevice.new deviceId).asyncInit keys
            resp).1.capabilities.any
            (fun c => lowerString t == lowerString c) then 2 else 0) := by
  obtain ⟨data, c, v, n, m, s, a, hdl, hc, hv, hn, hm, hs, ha, hres⟩ :=
    asyncInit_none_inv h
  have h2 : (((ImouDevice.new deviceId).asyncInit keys resp).1.asyncInit
      keys resp).2 = none := by
    simp [ImouDevice.asyncInit, ImouDevice.initTry, hdl, hc, hv, hn, hm,
      hs, ha]
  obtain ⟨data2, c2, v2, n2, m2, s2, a2, hdl2, hc2, hv2, hn2, hm2, hs2,
    ha2, hres2⟩ := asyncInit_none_inv h2
  rw [hdl] at hdl2
  obtain rfl : data2 = data := by
    injection hdl2 with h0
    injection h0 with h1
    exact h1.symm
  rw [hc] at hc2; rw [hv] at hv2; rw [hn] at hn2; rw [hm] at hm2
  rw [hs] at hs2; rw [ha] at ha2
  obtain rfl : c2 = c := by injection hc2 with h0; exact h0.symm
  obtain rfl : v2 = v := by injection hv2 with h0; exact h0.symm
  obtain rfl : n2 = n := by injection hn2 with h0; exact h0.symm
  obtain rfl : m2 = m := by injection hm2 with h0; exact h0.symm
  obtain rfl : s2 = s := by injection hs2 with h0; exact h0.symm
  obtain rfl : a2 = a := by injection ha2 with h0; exact h0.symm
  refine ⟨h2, ?_, ?_, ?_⟩
  · rw [hres2, set_initialized_sensorInstances,
        initSuccessState_sensorInstances, hres,
        set_initialized_sensorInstances, initSuccessState_sensorInstances,
        show (ImouDevice.new deviceId).sensorInstances = [] from rfl]
    simp [mkImouSensor]
  · rw [hres2, set_initialized_binarySensorInstances,
        initSuccessState_binarySensorInstances, hres,
        set_initialized_binarySensorInstances,
        initSuccessState_binarySensorInstances,
        show (ImouDevice.new deviceId).binarySensorInstances = [] from rfl]
    simp [mkImouBinarySensor]
  · intro t ht
    rw [hres2, set_initialized_switchInstances,
        initSuccessState_switchInstances, hres,
        set_initialized_switchInstances, initSuccessState_switchInstances,
        set_initialized_capabilities, initSuccessState_capabilities,
        show (ImouDevice.new deviceId).switchInstances = [] from rfl,
        List.nil_append, List.countP_append, countP_name_map_mkSwitch,
        countP_name_map_mkSwitch, count_filter_eq_if t _ keys hnd ht,
        any_eq_isSome_find?]
    split <;> rename_i hq <;> simp [hq]

/-- C9 witness: on the concrete example, initializing twice yields two
lastAlarm sensor entities. -/
theorem asyncInit_not_idempotent_ex :
    (((ImouDevice.new "IPC1").asyncInit keysEx respEx).1.asyncInit keysEx
        respEx).1.sensorInstances.countP
        (fun e => e.name == "lastAlarm") = 2 :=
  (asyncInit_not_idempotent "IPC1" keysEx respEx (by decide) rfl).2.1

lemma diagSensorList_ok (table : List (String × String)) (l : List Entity)
    (h : ∀ e ∈ l, (List.lookup e.name table).isSome = true) :
    ∃ out, diagSensorList table l = Except.ok out := by
  induction l with
  | nil => exact ⟨[], rfl⟩
  | cons e rest ih =>
    have he := h e (by simp)
    cases hl : List.lookup e.name table with
    | none => rw [hl] at he; simp at he
    | some desc =>
      obtain ⟨out, hout⟩ := ih (fun x hx => h x (by simp [hx]))
      exact ⟨{ name := e.name,
               description := desc ++ " (" ++ e.name ++ ")",
               state := e.state, isEnabled := e.enabled,
               isUpdated := e.isUpdated } :: out,
             by simp [diagSensorList, hl, hout]⟩

lemma diagBinaryList_ok (table : List (String × String)) (l : List Entity)
    (h : ∀ e ∈ l, (List.lookup e.name table).isSome = true) :
    ∃ out, diagBinaryList table l = Except.ok out := by
  induction l with
  | nil => exact ⟨[], rfl⟩
  | cons e rest ih =>
    have he := h e (by simp)
    cases hl : List.lookup e.name table with
    | none => rw [hl] at he; simp at he
    | some desc =>
      obtain ⟨out, hout⟩ := ih (fun x hx => h x (by simp [hx]))
      exact ⟨{ name := e.name,
               description := desc ++ " (" ++ e.name ++ ")",
               state := e.isOn, isEnabled := e.enabled,
               isUpdated := e.isUpdated } :: out,
             by simp [diagBinaryList, hl, hout]⟩

/-- C7 counterexample: the claim that the description falls back to the raw
name in all four diagnostics lists is false.  On this concrete device the
sensor name `"lastAlarm"` is absent from the sensors table, and the call
fails with a key error instead of falling back. -/
theorem getDiagnostics_unknown_sensor_raises :
    diagDeviceEx.getDiagnostics [] [] [] [] =
      Except.error (PyError.keyError "lastAlarm") := rfl

/-- C7 (amended): the raw-name fallback holds for the capabilities and
switches lists only; the sensor and binary-sensor descriptions are direct
table indexes, so the call succeeds only when every sensor and binary-sensor
name is present in its table, and under that condition every capability or
switch name absent from its lookup table is described by the raw name
itself. -/
theorem getDiagnostics_fallback (d : ImouDevice)
    (capsTable swTable sensTable binTable : List (String × String))
    (hs : ∀ e ∈ d.sensorInstances,
        (List.lookup e.name sensTable).isSome = true)
    (hb : ∀ e ∈ d.binarySensorInstances,
        (List.lookup e.name binTable).isSome = true)
    (c : String) (hc : c ∈ d.capabilities)
    (hcu : List.lookup c capsTable = none)
    (e : Entity) (he : e ∈ d.switchInstances)
    (heu : List.lookup e.name swTable = none) :
    ∃ diag, d.getDiagnostics capsTable swTable sensTable binTable =
        Except.ok diag ∧
      ({ name := c, description := c } : CapabilityDiag) ∈
        diag.capabilities ∧
      ({ name := e.name, description := e.name, state := e.isOn,
         isEnabled := e.enabled, isUpdated := e.isUpdated } :
        BoolStateDiag) ∈ diag.switches := by
  obtain ⟨sens, hsens⟩ := diagSensorList_ok sensTable d.sensorInstances hs
  obtain ⟨bins, hbins⟩ := diagBinaryList_ok binTable d.binarySensorInstances hb
  have hdc : describeWith capsTable c = c := by simp [describeWith, hcu]
  have hde : describeWith swTable e.name = e.name := by
    simp [describeWith, heu]
  refine ⟨{ device := { id := d.deviceId, name := d.name,
                        catalog := d.catalog, givenName := d.givenName,
                        model := d.deviceModel, firmware := d.firmware,
                        manufacturer := d.manufacturer,
                        online := if d.online then "yes" else "no" },
            capabilities := d.capabilities.map (fun c0 =>
              { name := c0, description := describeWith capsTable c0 }),
            switches := d.switchInstances.map (fun e0 =>
              { name := e0.name,
                description := describeWith swTable e0.name,
                state := e0.isOn, isEnabled := e0.enabled,
                isUpdated := e0.isUpdated }),
            sensors := sens, binarySensors := bins }, ?_, ?_, ?_⟩
  · simp [ImouDevice.getDiagnostics, hsens, hbins]
  · have hmem := List.mem_map_of_mem (fun c0 =>
      ({ name := c0, description := describeWith capsTable c0 } :
        CapabilityDiag)) hc
    simpa [hdc] using hmem
  · have hmem := List.mem_map_of_mem (fun e0 =>
      ({ name := e0.name, description := describeWith swTable e0.name,
         state := e0.isOn, isEnabled := e0.enabled,
         isUpdated := e0.isUpdated } : BoolStateDiag)) he
    simpa [hde] using hmem

/-- C7 amended-claim witness: on the concrete device with complete sensor
tables, diagnostics succeed even though the capability and switch names are
unknown. -/
theorem getDiagnostics_fallback_ex :
    (diagDeviceEx.getDiagnostics [] [] [("lastAlarm", "Last alarm")]
        [("online", "Online")]).isOk = true := by
  obtain ⟨diag, hok, hmem1, hmem2⟩ :=
    getDiagnostics_fallback diagDeviceEx [] [] [("lastAlarm", "Last alarm")]
      [("online", "Online")] (by decide) (by decide) "unknownCap" (by decide)
      rfl (mkImouSwitch "IPC1" "cam" "nightVision") (by decide) rfl
  rw [hok]
  rfl

lemma dictInsert_lookup_self (m : List (String × ImouDevice)) (k : String)
    (v : ImouDevice) :
    List.lookup k (dictInsert m k v) = some v := by
  induction m with
  | nil => simp [dictInsert, List.lookup]
  | cons p rest ih =>
    rcases p with ⟨k1, v1⟩
    by_cases hk : k1 = k
    · simp [dictInsert, hk, List.lookup]
    · have hbeq : (k == k1) = false :=
        beq_eq_false_iff_ne.mpr (fun hh => hk hh.symm)
      simp [dictInsert, hk, List.lookup, hbeq, ih]

lemma dictInsert_lookup_other (m : List (String × ImouDevice))
    (k k2 : String) (v : ImouDevice) (h : k2 ≠ k) :
    List.lookup k2 (dictInsert m k v) = List.lookup k2 m := by
  have hbeq : (k2 == k) = false := beq_eq_false_iff_ne.mpr h
  induction m with
  | nil => simp [dictInsert, List.lookup, hbeq]
  | cons p rest ih =>
    rcases p with ⟨k1, v1⟩
    by_cases hk : k1 = k
    · subst hk
      simp [dictInsert, List.lookup, hbeq]
    · cases hbk : (k2 == k1) with
      | true => simp [dictInsert, hk, List.lookup, hbk]
      | false => simp [dictInsert, hk, List.lookup, hbk, ih]

lemma discoverLoop_ok_cons {switchKeys : List String}
    {detailOf : String → DetailResponse} {data : DeviceData}
    {rest : List DeviceData} {acc m : List (String × ImouDevice)}
    (h : discoverLoop switchKeys detailOf (data :: rest) acc =
      Except.ok m) :
    ∃ dev, buildDevice switchKeys detailOf data = Except.ok dev ∧
      discoverLoop switchKeys detailOf rest
        (dictInsert acc dev.getName dev) = Except.ok m := by
  cases hb : buildDevice switchKeys detailOf data with
  | error e => simp [discoverLoop, hb] at h
  | ok dev =>
    refine ⟨dev, rfl, ?_⟩
    simpa [discoverLoop, hb] using h

/-- If no entry of the remaining list resolves to name `n`, the final
mapping agrees with the accumulator at key `n`. -/
lemma discoverLoop_lookup_no_match (switchKeys : List String)
    (detailOf : String → DetailResponse) (n : String) :
    ∀ (l : List DeviceData) (acc m : List (String × ImouDevice)),
      discoverLoop switchKeys detailOf l acc = Except.ok m →
      (∀ d0 ∈ l, ∀ dv, buildDevice switchKeys detailOf d0 = Except.ok dv →
        dv.getName ≠ n) →
      List.lookup n m = List.lookup n acc := by
  intro l
  induction l with
  | nil =>
    intro acc m h _
    simp [discoverLoop] at h
    simp [h]
  | cons data rest ih =>
    intro acc m h hno
    obtain ⟨dev, hb, hrest⟩ := discoverLoop_ok_cons h
    have hne : dev.getName ≠ n := hno data (by simp) dev hb
    rw [ih (dictInsert acc dev.getName dev) m hrest
        (fun d0 hd0 => hno d0 (by simp [hd0]))]
    exact dictInsert_lookup_other _ _ _ _ (Ne.symm hne)

/-- C8: the discovery mapping is keyed by display name, and when two devices
of the response resolve to the same name, the entry that appears later in
API response order is the one kept (it silently overwrites the earlier
one). -/
theorem discover_name_collision (switchKeys : List String)
    (detailOf : String → DetailResponse) (resp : DeviceListResponse)
    (m : List (String × ImouDevice)) (pre post : List DeviceData)
    (data : DeviceData) (dev : ImouDevice) (n : String)
    (hl : resp.deviceList = some (pre ++ data :: post))
    (hok : asyncDiscoverDevices switchKeys detailOf resp = Except.ok m)
    (hbuild : buildDevice switchKeys detailOf data = Except.ok dev)
    (hname : dev.getName = n)
    (hpost : ∀ d0 ∈ post, ∀ dv,
        buildDevice switchKeys detailOf d0 = Except.ok dv →
        dv.getName ≠ n) :
    List.lookup n m = some dev := by
  subst hname
  rcases resp with ⟨dl, cnt⟩
  simp only at hl
  subst hl
  cases cnt with
  | none => simp [asyncDiscoverDevices] at hok
  | some k =>
    have hloop : discoverLoop switchKeys detailOf (pre ++ data :: post) [] =
        Except.ok m := by
      simpa [asyncDiscoverDevices] using hok
    have main : ∀ (pre2 : List DeviceData)
        (acc : List (String × ImouDevice)),
        discoverLoop switchKeys detailOf (pre2 ++ data :: post) acc =
          Except.ok m →
        List.lookup dev.getName m = some dev := by
      intro pre2
      induction pre2 with
      | nil =>
        intro acc h
        obtain ⟨dev0, hb0, hrest⟩ := discoverLoop_ok_cons h
        rw [hbuild] at hb0
        have hdd : dev0 = dev := by injection hb0 with hh; exact hh.symm
        rw [hdd] at hrest
        rw [discoverLoop_lookup_no_match switchKeys detailOf
            (ImouDevice.getName dev) post _ m hrest hpost]
        exact dictInsert_lookup_self _ _ _
      | cons p pre3 ih =>
        intro acc h
        obtain ⟨devp, hbp, hrest⟩ := discoverLoop_ok_cons h
        exact ih _ hrest
    exact main pre [] hloop

/-- C8 witness: two concrete devices resolving to the display name
`"cam"`; the mapping holds the one built from the later entry. -/
theorem discover_name_collision_ex :
    List.lookup "cam" [("cam", devBEx)] = some devBEx :=
  discover_name_collision [] detailOfEx deviceListRespEx [("cam", devBEx)]
    [{ deviceId := some "A" }] [] { deviceId := some "B" } devBEx "cam"
    rfl rfl rfl rfl (by simp)

end Imouapi
